import Mathlib

/-!
Shallow embedding of `src/bot.py` (a Telegram text-to-image bot) and proofs
about its conversational state machine, its Hugging Face inference client
`hf_text_to_image`, its localization lookup `t`, and its startup credential
check.  Python strings are Lean `String`s, Python `dict`s are association
lists, the per-chat `ctx.user_data` dictionary is the `UserData` structure,
environment variables are the `Env` structure, and the two possible backend
HTTP responses consumed by one call of `hf_text_to_image` are explicit
`HFResp` inputs.  A `raise` in the Python source is modelled as an explicit
error constructor in the result type.
-/

/-- Python truthiness of an optional string: `None` and `""` are falsy. -/
def isTruthy : Option String → Bool
  | none => false
  | some s => !(s.toList.isEmpty)

/-- Python `a or b` on optional strings (used for `os.getenv(..) or os.getenv(..)`). -/
def pyOr (a b : Option String) : Option String :=
  if isTruthy a = true then a else b

/-- Python `x or d` where `x` is an optional string and `d` a string
(used for `update.message.text or ""` and `q.data or ""`). -/
def pyOrStr (a : Option String) (d : String) : String :=
  match a with
  | none => d
  | some s => if s.toList.isEmpty then d else s

/-- Character-list prefix test (helper for Python `str.startswith` and `in`). -/
def chPre : List Char → List Char → Bool
  | [], _ => true
  | _ :: _, [] => false
  | a :: as, b :: bs => a == b && chPre as bs

/-- Character-list substring test (helper for Python `sub in s`). -/
def chSub (pat : List Char) : List Char → Bool
  | [] => pat.isEmpty
  | c :: rest => chPre pat (c :: rest) || chSub pat rest

/-- Python `s.startswith(pat)`. -/
def pyStartsWith (pat s : String) : Bool := chPre pat.toList s.toList

/-- Python `pat in s` (substring containment). -/
def strContains (s pat : String) : Bool := chSub pat.toList s.toList

/-- Python whitespace characters stripped by `str.strip()` (ASCII range). -/
def isPySpace (c : Char) : Bool :=
  c == ' ' || c == '\t' || c == '\n' || c == '\r' || c == '\x0b' || c == '\x0c'

/-- Python `s.strip()`. -/
def pyStrip (s : String) : String :=
  String.mk (((s.toList.dropWhile isPySpace).reverse.dropWhile isPySpace).reverse)

/-- Python `s.split(sep, 1)[1]` for `sep = ":"`, on inputs that contain a
colon (all call sites in the source guard with `startswith`): everything
after the first colon. -/
def afterFirstColon (s : String) : String :=
  String.mk ((s.toList.dropWhile (fun c => !(c == ':'))).drop 1)

/-- Fuel-driven left-to-right non-overlapping replacement on character lists
(helper for Python `str.replace` / `str.format` placeholder substitution). -/
def replaceChs (pat rep : List Char) : Nat → List Char → List Char
  | _, [] => []
  | 0, l => l
  | Nat.succ n, c :: rest =>
    if chPre pat (c :: rest) = true then
      rep ++ replaceChs pat rep n ((c :: rest).drop pat.length)
    else c :: replaceChs pat rep n rest

/-- Python `s.replace(pat, rep)`. -/
def pyReplace (s pat rep : String) : String :=
  String.mk (replaceChs pat.toList rep.toList s.toList.length s.toList)

/-- Python `dict.get(k)` on an association list (first binding wins). -/
def dictGet {α : Type} (d : List (String × α)) (k : String) : Option α :=
  match d with
  | [] => none
  | (k2, v) :: rest => if k2 = k then some v else dictGet rest k

/-- Shallow model of Python `s.format(**kwargs)` restricted to the named
placeholders actually used by the source (`{ratio}` and `{msg}`): each
keyword argument `(name, value)` replaces the occurrences of the literal
placeholder `\x7bname\x7d` in `s`. -/
def pyFormat (s : String) (kw : List (String × String)) : String :=
  kw.foldl (fun acc p => pyReplace acc ("\x7b" ++ p.1 ++ "\x7d") p.2) s

/-- The `"ru"` entry of the `TEXT` table in `src/bot.py`. -/
def TEXT_ru_table : List (String × String) := [
  ("choose_lang", "Пожалуйста, выберите язык:"),
  ("main_menu", "🏠 Главное меню\nВыберите нужный раздел 👇"),
  ("design_menu", "🎨 Дизайн с ИИ\nВыберите раздел для работы с изображением 👇"),
  ("hf_menu", "🤗 Hugging Face\nВыберите размер изображения 👇"),
  ("prompt_intro", "✍️ Отправь текст промпта.\n\nРазмер: {ratio}\nПосле генерации просто пиши следующий промпт — /start больше не нужен."),
  ("generating", "Генерирую картинку... ⏳"),
  ("no_hf_token", "❌ Нет HF_TOKEN в Render Environment Variables.\nДобавь HF_TOKEN и сделай redeploy."),
  ("hf_403", "❌ HF 403: у токена нет прав на Inference.\nСоздай новый токен на Hugging Face и включи галочку **Inference → Make calls to Inference Providers**."),
  ("hf_404", "❌ HF 404: модель/эндпоинт не найден.\nПроверь HF_MODEL и базовый URL."),
  ("hf_other", "❌ Ошибка генерации:\n{msg}"),
  ("btn_design", "🎨 Дизайн с ИИ"),
  ("btn_hf", "🤗 Hugging Face"),
  ("btn_back", "⬅️ Назад"),
  ("btn_size", "📐 Размер"),
  ("btn_ratio_11", "1:1"),
  ("btn_ratio_916", "9:16"),
  ("btn_ratio_169", "16:9")]

/-- The `"en"` entry of the `TEXT` table in `src/bot.py`. -/
def TEXT_en_table : List (String × String) := [
  ("choose_lang", "Please choose a language:"),
  ("main_menu", "🏠 Main menu\nChoose an option 👇"),
  ("design_menu", "🎨 AI Design\nChoose image tool 👇"),
  ("hf_menu", "🤗 Hugging Face\nChoose image size 👇"),
  ("prompt_intro", "✍️ Send a prompt.\n\nSize: {ratio}\nAfter generation, just send the next prompt — /start is not needed."),
  ("generating", "Generating image... ⏳"),
  ("no_hf_token", "❌ No HF_TOKEN in Render Environment Variables.\nAdd HF_TOKEN and redeploy."),
  ("hf_403", "❌ HF 403: token has no Inference permissions.\nCreate a new token on Hugging Face and enable **Inference → Make calls to Inference Providers**."),
  ("hf_404", "❌ HF 404: model/endpoint not found.\nCheck HF_MODEL and base URL."),
  ("hf_other", "❌ Generation error:\n{msg}"),
  ("btn_design", "🎨 AI Design"),
  ("btn_hf", "🤗 Hugging Face"),
  ("btn_back", "⬅️ Back"),
  ("btn_size", "📐 Size"),
  ("btn_ratio_11", "1:1"),
  ("btn_ratio_916", "9:16"),
  ("btn_ratio_169", "16:9")]

/-- The `TEXT` dictionary of `src/bot.py`: language code → key → UI string. -/
def TEXT : List (String × List (String × String)) :=
  [("ru", TEXT_ru_table), ("en", TEXT_en_table)]

/-- Source: `t(ctx, key, **kwargs)` from `src/bot.py` with the language already
extracted from the context:
`s = TEXT.get(lang, TEXT["ru"]).get(key, key); return s.format(**kwargs) if kwargs else s`. -/
def t (lang : String) (key : String) (kw : List (String × String)) : String :=
  let s := (dictGet ((dictGet TEXT lang).getD TEXT_ru_table) key).getD key
  if kw = [] then s else pyFormat s kw

/-- The per-chat `ctx.user_data` dictionary of `src/bot.py`, with one field
for each key the source reads or writes (`None` models an absent key). -/
structure UserData where
  lang : Option String
  mode : Option String
  ratio : Option String
  hf_model : Option String
deriving DecidableEq

/-- The environment variables read by `src/bot.py` at import time. -/
structure Env where
  TELEGRAM_TOKEN : Option String
  TOKEN : Option String
  HF_TOKEN : Option String
  HF_MODEL : Option String
deriving DecidableEq

/-- Source: `get_lang`: `ctx.user_data.get("lang", "ru")`. -/
def get_lang (ud : UserData) : String := ud.lang.getD "ru"

/-- Source: `get_mode`: `ctx.user_data.get("mode", "idle")`. -/
def get_mode (ud : UserData) : String := ud.mode.getD "idle"

/-- Source: `get_ratio`: `ctx.user_data.get("ratio", "1:1")`. -/
def get_ratio (ud : UserData) : String := ud.ratio.getD "1:1"

/-- Source: `HF_MODEL_DEFAULT = os.getenv("HF_MODEL", "stabilityai/stable-diffusion-2-1")`. -/
def HF_MODEL_DEFAULT (env : Env) : String :=
  env.HF_MODEL.getD "stabilityai/stable-diffusion-2-1"

/-- Source: `get_model`: `ctx.user_data.get("hf_model", HF_MODEL_DEFAULT)`. -/
def get_model (env : Env) (ud : UserData) : String :=
  ud.hf_model.getD (HF_MODEL_DEFAULT env)

/-- Source: `set_mode(ctx, m)`. -/
def set_mode (ud : UserData) (m : String) : UserData := { ud with mode := some m }

/-- Source: `set_ratio(ctx, r)`. -/
def set_ratio (ud : UserData) (r : String) : UserData := { ud with ratio := some r }

/-- The module-level guard of `src/bot.py` lines 29 and 39-40:
`TELEGRAM_TOKEN = os.getenv("TELEGRAM_TOKEN") or os.getenv("TOKEN")` followed by
`if not TELEGRAM_TOKEN: raise RuntimeError(...)`.  `Except.error` models the
fatal startup `raise`; the HF_TOKEN variable is read but not checked here. -/
def moduleInit (env : Env) : Except String Unit :=
  if isTruthy (pyOr env.TELEGRAM_TOKEN env.TOKEN) = true then Except.ok ()
  else Except.error "Нет TELEGRAM_TOKEN (или TOKEN) в переменных окружения Render"

/-- An inline keyboard: rows of (label, callback_data) buttons. -/
abbrev Kb := List (List (String × String))

/-- Source: `kb_lang()`. -/
def kb_lang : Kb :=
  [[("🇬🇧 English", "lang:en")], [("🇷🇺 Русский", "lang:ru")]]

/-- Source: `kb_main(ctx)`. -/
def kb_main (lang : String) : Kb :=
  [[(t lang "btn_design" [], "menu:design")]]

/-- Source: `kb_design(ctx)`. -/
def kb_design (lang : String) : Kb :=
  [[(t lang "btn_hf" [], "design:hf")],
   [(t lang "btn_back" [], "back:main")]]

/-- Source: `kb_hf_sizes(ctx)`. -/
def kb_hf_sizes (lang : String) : Kb :=
  [[(t lang "btn_ratio_11" [], "size:1:1"),
    (t lang "btn_ratio_916" [], "size:9:16"),
    (t lang "btn_ratio_169" [], "size:16:9")],
   [(t lang "btn_back" [], "back:design")]]

/-- Source: `kb_prompt_controls(ctx)`. -/
def kb_prompt_controls (lang : String) : Kb :=
  [[(t lang "btn_size" [], "prompt:size"),
    (t lang "btn_back" [], "back:hf")]]

/-- Source: `RATIO_TO_WH` from `src/bot.py`. -/
def RATIO_TO_WH : List (String × (Nat × Nat)) :=
  [("1:1", (1024, 1024)), ("9:16", (768, 1344)), ("16:9", (1344, 768))]

/-- One outbound effect of a handler, in emission order.  `answerCb` is the
unconditional `await q.answer()`; `invokeGen` records a call of
`hf_text_to_image` together with the constructed generation request. -/
inductive Eff where
  | answerCb
  | editText (s : String) (kb : Option Kb)
  | replyText (s : String) (kb : Option Kb)
  | sendChatAction
  | replyPhoto (b : List Nat) (caption : String)
  | deleteMsg
  | invokeGen (prompt mdl : String) (width height : Nat)
deriving DecidableEq

/-- Source: `on_callback(update, ctx)` from `src/bot.py`, as a pure transition on the
per-chat state: the callback payload `q.data` comes in as `cbData`, and the
result is the updated `user_data` together with the list of outbound effects. -/
def on_callback (ud : UserData) (cbData : Option String) : UserData × List Eff :=
  let data := pyOrStr cbData ""
  if pyStartsWith "lang:" data = true then
    let code := afterFirstColon data
    let ud2 : UserData := { ud with lang := some code, mode := some "main" }
    (ud2, [Eff.answerCb, Eff.editText (t (get_lang ud2) "main_menu" []) (some (kb_main (get_lang ud2)))])
  else if data = "menu:design" then
    (set_mode ud "design",
     [Eff.answerCb, Eff.editText (t (get_lang ud) "design_menu" []) (some (kb_design (get_lang ud)))])
  else if data = "design:hf" then
    (set_mode ud "hf",
     [Eff.answerCb, Eff.editText (t (get_lang ud) "hf_menu" []) (some (kb_hf_sizes (get_lang ud)))])
  else if data = "back:main" then
    (set_mode ud "main",
     [Eff.answerCb, Eff.editText (t (get_lang ud) "main_menu" []) (some (kb_main (get_lang ud)))])
  else if data = "back:design" then
    (set_mode ud "design",
     [Eff.answerCb, Eff.editText (t (get_lang ud) "design_menu" []) (some (kb_design (get_lang ud)))])
  else if data = "back:hf" then
    (set_mode ud "hf",
     [Eff.answerCb, Eff.editText (t (get_lang ud) "hf_menu" []) (some (kb_hf_sizes (get_lang ud)))])
  else if pyStartsWith "size:" data = true then
    let r0 := afterFirstColon data
    let ratio := if dictGet RATIO_TO_WH r0 = none then "1:1" else r0
    (set_mode (set_ratio ud ratio) "await_prompt",
     [Eff.answerCb,
      Eff.editText (t (get_lang ud) "prompt_intro" [("ratio", ratio)])
        (some (kb_prompt_controls (get_lang ud)))])
  else if data = "prompt:size" then
    (set_mode ud "hf",
     [Eff.answerCb, Eff.editText (t (get_lang ud) "hf_menu" []) (some (kb_hf_sizes (get_lang ud)))])
  else
    (ud, [Eff.answerCb])

/-- One HTTP response as observed by `hf_text_to_image`: the status code, the
`content-type` header, the body bytes (`r.content`), the body decoded as text
(`r.text`), and the outcome of `r.json()`: whether it parses (`jsonOk`),
whether the parsed value is a dict (`jsonIsDict`), the numeric value of its
`"estimated_time"` key if the parsed value is a dict and has one
(`estimated_time`), and its `json.dumps(..., ensure_ascii=False)`
serialization (`jsonDump`). -/
structure HFResp where
  status : Nat
  contentType : Option String
  content : List Nat
  text : String
  jsonOk : Bool
  jsonIsDict : Bool
  estimated_time : Option ℚ
  jsonDump : String
deriving DecidableEq

/-- The first eight bytes of a PNG file, compared against `r.content[:8]`. -/
def pngMagic : List Nat := [0x89, 0x50, 0x4E, 0x47, 0x0D, 0x0A, 0x1A, 0x0A]

/-- Source: `r.ok` of the `requests` library: true iff the status code is below 400. -/
def respOk (r : HFResp) : Bool := decide (r.status < 400)

/-- Source: `ctype = (r.headers.get("content-type") or "").lower()`. -/
def ctypeOf (r : HFResp) : String :=
  String.mk ((pyOrStr r.contentType "").toList.map Char.toLower)

/-- The image-success test of `src/bot.py` line 207:
`r.ok and ("image/" in ctype or r.content[:8] == b"\x89PNG\r\n\x1a\n")`. -/
def isImgResp (r : HFResp) : Bool :=
  respOk r && (strContains (ctypeOf r) "image/" || r.content.take 8 == pngMagic)

/-- Source: `data` after lines 211-214: `r.json()` if it parses, else `{"error": r.text}`
(the fallback is a dict).  This says whether `data` is a dict. -/
def dataIsDict (r : HFResp) : Bool :=
  if r.jsonOk = true then r.jsonIsDict else true

/-- Source: `data.get("estimated_time")` when `data` is the parsed JSON dict; the
fallback dict `{"error": r.text}` has no such key. -/
def dataEst (r : HFResp) : Option ℚ :=
  if r.jsonOk = true then r.estimated_time else none

/-- Source: `json.dumps(data, ensure_ascii=False)` for `data` as above (the JSON-string
escaping of `r.text` inside the fallback object is not modelled). -/
def dataDump (r : HFResp) : String :=
  if r.jsonOk = true then r.jsonDump else "\x7b\"error\": \"" ++ r.text ++ "\"\x7d"

/-- The argument of `raise RuntimeError(f"HF error {code}: {msg}")`. -/
def hfErrorMsg (st : Nat) (m : String) : String :=
  "HF error " ++ toString st ++ ": " ++ m

/-- How one call of `hf_text_to_image` ends: a returned image (`img`), a
`raise RuntimeError(msg)` (`runtimeError`), or the `ValueError` that
`time.sleep` raises when its argument is negative (`valueError`). -/
inductive PyResult where
  | img (b : List Nat)
  | runtimeError (msg : String)
  | valueError
deriving DecidableEq

/-- The body of the line 220-234 retry block of `hf_text_to_image` once the
sleep statement `time.sleep(min(12, float(est)))` has been reached: a
negative argument makes `time.sleep` raise `ValueError` (no retry request is
sent); otherwise the retry `POST` is sent and its response handled like the
first (image returned, anything else raised as `RuntimeError`). -/
def hfRetry (r2 : HFResp) (est : ℚ) : PyResult × Nat × Option ℚ :=
  if min 12 est < 0 then (PyResult.valueError, 1, some (min 12 est))
  else if isImgResp r2 = true then (PyResult.img r2.content, 2, some (min 12 est))
  else (PyResult.runtimeError (hfErrorMsg r2.status (dataDump r2)), 2, some (min 12 est))

/-- Source: `hf_text_to_image(prompt, model, width, height)` from `src/bot.py`
lines 184-236, as a function of the backend responses: `r1` is the response
to the first `requests.post`, and `r2` the response to the retry `POST` when
one is made.  The guard merges lines 220-223 (`code == 503 and
isinstance(data, dict)` with `est = data.get("estimated_time"); if est:`,
Python truthiness of the numeric `est` being `est is not None and est != 0`);
both failing guards fall to the same final `raise`.  The request payload (prompt, model, width, height) does not
influence the control flow, so it is omitted here; the `on_text` model below
records it in its `invokeGen` effect.  Result: the outcome, the number of
`POST` requests actually sent, and the `time.sleep` argument
`min(12, float(est))` if the sleep statement was reached. -/
def hf_text_to_image (r1 r2 : HFResp) : PyResult × Nat × Option ℚ :=
  if isImgResp r1 = true then (PyResult.img r1.content, 1, none)
  else if r1.status = 503 ∧ dataIsDict r1 = true ∧ dataEst r1 ≠ none ∧ (dataEst r1).getD 0 ≠ 0 then
    hfRetry r2 ((dataEst r1).getD 0)
  else (PyResult.runtimeError (hfErrorMsg r1.status (dataDump r1)), 1, none)

/-- The error classification of `on_text`'s `except RuntimeError` branch
(lines 357-366): substring tests on the exception text choose the reply. -/
def classifyHF (lang : String) (err : String) : String :=
  if strContains err "HF error 403" = true then t lang "hf_403" []
  else if strContains err "HF error 404" = true then t lang "hf_404" []
  else t lang "hf_other" [("msg", err)]

/-- An exception that escapes a handler uncaught (only the `ValueError` from
a negative `time.sleep` argument can, since `on_text` catches `RuntimeError`
only). -/
inductive Uncaught where
  | valueError
deriving DecidableEq

/-- The generation part of `on_text` (lines 333-369): the request is built
from the session ratio and model, `hf_text_to_image` is invoked (recorded as
the `invokeGen` effect), and its outcome is dispatched: an image is sent and
the session kept in prompt mode; a `RuntimeError` is classified into a
localized reply and the session kept in prompt mode; any other exception
escapes uncaught (the state mutations after the call do not run). -/
def genBranch (env : Env) (ud : UserData) (msgText : Option String) (r1 r2 : HFResp) :
    UserData × List Eff × Option Uncaught :=
  let prompt := pyStrip (pyOrStr msgText "")
  let ratio := get_ratio ud
  let wh := (dictGet RATIO_TO_WH ratio).getD (1024, 1024)
  let pre := [Eff.sendChatAction,
              Eff.replyText (t (get_lang ud) "generating" []) none,
              Eff.invokeGen prompt (get_model env ud) wh.1 wh.2]
  match hf_text_to_image r1 r2 with
  | (PyResult.img b, _, _) =>
    (set_mode ud "await_prompt",
     pre ++ [Eff.replyPhoto b (if get_lang ud = "ru" then "✅ Готово!" else "✅ Done!"),
             Eff.deleteMsg,
             Eff.replyText (t (get_lang ud) "prompt_intro" [("ratio", ratio)])
               (some (kb_prompt_controls (get_lang ud)))],
     none)
  | (PyResult.runtimeError e, _, _) =>
    (set_mode ud "await_prompt",
     pre ++ [Eff.deleteMsg, Eff.replyText (classifyHF (get_lang ud) e) none],
     none)
  | (PyResult.valueError, _, _) =>
    (ud, pre, some Uncaught.valueError)

/-- The prompt-mode part of `on_text` (lines 324-369): a blank stripped text
returns silently (no effect at all), a missing `HF_TOKEN` yields the
`no_hf_token` reply, otherwise generation runs. -/
def promptBranch (env : Env) (ud : UserData) (msgText : Option String) (r1 r2 : HFResp) :
    UserData × List Eff × Option Uncaught :=
  if pyStrip (pyOrStr msgText "") = "" then (ud, [], none)
  else if isTruthy env.HF_TOKEN = false then
    (ud, [Eff.replyText (t (get_lang ud) "no_hf_token" []) none], none)
  else genBranch env ud msgText r1 r2

/-- Source: `on_text(update, ctx)` from `src/bot.py` lines 305-369 as a pure
transition: `msgText` is `update.message.text`, and `r1`, `r2` are the
backend responses `hf_text_to_image` would observe if invoked.  Result:
updated `user_data`, outbound effects in order, and the uncaught exception
if one escapes. -/
def on_text (env : Env) (ud : UserData) (msgText : Option String) (r1 r2 : HFResp) :
    UserData × List Eff × Option Uncaught :=
  if get_mode ud = "idle" ∨ get_mode ud = "lang" then
    (set_mode ud "lang",
     [Eff.replyText (t (get_lang ud) "choose_lang" []) (some kb_lang)], none)
  else if get_mode ud = "main" ∨ get_mode ud = "design" ∨ get_mode ud = "hf" then
    if get_mode ud = "main" then
      (ud, [Eff.replyText (t (get_lang ud) "main_menu" []) (some (kb_main (get_lang ud)))], none)
    else if get_mode ud = "design" then
      (ud, [Eff.replyText (t (get_lang ud) "design_menu" []) (some (kb_design (get_lang ud)))], none)
    else
      (ud, [Eff.replyText (t (get_lang ud) "hf_menu" []) (some (kb_hf_sizes (get_lang ud)))], none)
  else
    promptBranch env ud msgText r1 r2

/-- Extracts the first recorded `hf_text_to_image` invocation, with the
constructed generation request, from an effect list. -/
def genCallOf : List Eff → Option (String × String × Nat × Nat)
  | [] => none
  | Eff.invokeGen p m w h :: _ => some (p, m, w, h)
  | _ :: rest => genCallOf rest

/-- A fully configured environment (both credentials present). -/
def env0 : Env :=
  { TELEGRAM_TOKEN := some "tg-secret", TOKEN := none,
    HF_TOKEN := some "hf-secret", HF_MODEL := none }

/-- An environment with the chat-transport credential but no inference
credential. -/
def envNoHF : Env :=
  { TELEGRAM_TOKEN := some "tg-secret", TOKEN := none,
    HF_TOKEN := none, HF_MODEL := none }

/-- A session in prompt mode (English, ratio 9:16 selected). -/
def udAwait : UserData :=
  { lang := some "en", mode := some "await_prompt", ratio := some "9:16", hf_model := none }

/-- A session sitting on the main menu. -/
def udMainEn : UserData :=
  { lang := some "en", mode := some "main", ratio := none, hf_model := none }

/-- A session sitting on the provider (design) menu. -/
def udDesignEn : UserData :=
  { lang := some "en", mode := some "design", ratio := none, hf_model := none }

/-- A session sitting on the size menu. -/
def udHfRu : UserData :=
  { lang := some "ru", mode := some "hf", ratio := none, hf_model := none }

/-- A successful backend response: HTTP 200 with an image content type. -/
def respPng : HFResp :=
  { status := 200, contentType := some "image/png", content := [137, 80, 78, 71],
    text := "", jsonOk := false, jsonIsDict := false, estimated_time := none, jsonDump := "" }

/-- An HTTP 403 backend error with a JSON body. -/
def resp403 : HFResp :=
  { status := 403, contentType := some "application/json", content := [], text := "",
    jsonOk := true, jsonIsDict := true, estimated_time := none,
    jsonDump := "\x7b\"error\": \"forbidden\"\x7d" }

/-- An HTTP 503 "model is currently loading" response reporting a negative
`estimated_time` of -3 seconds. -/
def respLoadNeg : HFResp :=
  { status := 503, contentType := some "application/json", content := [], text := "",
    jsonOk := true, jsonIsDict := true, estimated_time := some (-3),
    jsonDump := "\x7b\"error\": \"Model is currently loading\", \"estimated_time\": -3\x7d" }

/-- An HTTP 503 "model is currently loading" response reporting an
`estimated_time` of 3 seconds. -/
def respLoad3 : HFResp :=
  { status := 503, contentType := some "application/json", content := [], text := "",
    jsonOk := true, jsonIsDict := true, estimated_time := some 3,
    jsonDump := "\x7b\"error\": \"Model is currently loading\", \"estimated_time\": 3\x7d" }

/-! ## Claims -/

/-- C9 counterexample: for a key absent from the localization table, `t`
returns the key itself rather than falling back to a default-language
string — the default-language (`ru`) table has no entry for the key either,
so no default-language fallback takes place.  This refutes the part of the
claim saying the lookup "falls back to a default language whenever ... the
requested key is missing". -/
theorem t_missing_key_returns_key_cx :
    t "en" "xyzzy" [] = "xyzzy" ∧ dictGet TEXT_ru_table "xyzzy" = none
      ∧ dictGet TEXT_en_table "xyzzy" = none := by
  decide

/-- C9 (amended): `t` is a pure lookup with placeholder substitution; it
falls back to the default language `ru` whenever the requested *language*
is missing from the table, but a missing *key* yields the key itself. -/
theorem t_fallback_and_subst :
    (∀ key kw L, dictGet TEXT L = none → t L key kw = t "ru" key kw) ∧
    (∀ L key, dictGet ((dictGet TEXT L).getD TEXT_ru_table) key = none → t L key [] = key) ∧
    t "ru" "prompt_intro" [("ratio", "16:9")]
      = "✍️ Отправь текст промпта.\n\nРазмер: 16:9\nПосле генерации просто пиши следующий промпт — /start больше не нужен." := by
  refine ⟨?_, ?_, by decide⟩
  · intro key kw L h
    unfold t
    rw [h]
    rfl
  · intro L key h
    simp [t, h]

/-- C9 witness: the language fallback at language `de` and the missing-key
behaviour at key `zzz`, via `t_fallback_and_subst`. -/
theorem t_fallback_and_subst_witness :
    t "de" "main_menu" [] = t "ru" "main_menu" [] ∧ t "ru" "zzz" [] = "zzz" :=
  ⟨t_fallback_and_subst.1 "main_menu" [] "de" (by decide),
   t_fallback_and_subst.2.1 "ru" "zzz" (by decide)⟩

/-- C2 counterexample: on an unrecognized callback tag (`"bogus"`) the
handler leaves the state unchanged but sends *no* response at all — it only
acknowledges the callback (`q.answer()`); no "not understood" fallback text
exists anywhere in the `TEXT` table and no main-menu button is shown.  This
refutes the part of the claim requiring a generic fallback response with a
main-menu button. -/
theorem unknown_tag_no_fallback_cx :
    on_callback udMainEn (some "bogus") = (udMainEn, [Eff.answerCb]) ∧
    dictGet TEXT_ru_table "not_understood" = none ∧
    dictGet TEXT_en_table "not_understood" = none := by
  decide

/-- C2 (amended): for every session state and every callback payload matching
none of the recognized tags, the session state is unchanged and the event is
ignored without any response message (only the callback acknowledgement is
sent); the event is never fatal. -/
theorem unknown_tag_ignored (ud : UserData) (cbData : Option String)
    (h1 : pyStartsWith "lang:" (pyOrStr cbData "") = false)
    (h2 : pyOrStr cbData "" ≠ "menu:design")
    (h3 : pyOrStr cbData "" ≠ "design:hf")
    (h4 : pyOrStr cbData "" ≠ "back:main")
    (h5 : pyOrStr cbData "" ≠ "back:design")
    (h6 : pyOrStr cbData "" ≠ "back:hf")
    (h7 : pyStartsWith "size:" (pyOrStr cbData "") = false)
    (h8 : pyOrStr cbData "" ≠ "prompt:size") :
    on_callback ud cbData = (ud, [Eff.answerCb]) := by
  simp [on_callback, h1, h2, h3, h4, h5, h6, h7, h8]

/-- C2 witness: `unknown_tag_ignored` applied to the concrete unrecognized
tag `"garbage:tag"` in a prompt-mode session. -/
theorem unknown_tag_ignored_witness :
    on_callback udAwait (some "garbage:tag") = (udAwait, [Eff.answerCb]) :=
  unknown_tag_ignored udAwait (some "garbage:tag") (by decide) (by decide) (by decide)
    (by decide) (by decide) (by decide) (by decide) (by decide)

/-- C10 (confirmed): for every callback payload of the form `size:R` with `R`
not a key of `RATIO_TO_WH`, the handler silently substitutes the default
ratio: the session gets `ratio = "1:1"` and `mode = "await_prompt"`, and the
prompt instructions are rendered with ratio `1:1` — the event is neither
rejected nor a no-op. -/
theorem unknown_size_defaults (ud : UserData) (rest : List Char)
    (h : dictGet RATIO_TO_WH (String.mk rest) = none) :
    on_callback ud (some (String.mk ('s' :: 'i' :: 'z' :: 'e' :: ':' :: rest)))
      = ({ ud with ratio := some "1:1", mode := some "await_prompt" },
         [Eff.answerCb,
          Eff.editText (t (get_lang ud) "prompt_intro" [("ratio", "1:1")])
            (some (kb_prompt_controls (get_lang ud)))]) := by
  have h2 : dictGet RATIO_TO_WH
      (afterFirstColon (pyOrStr (some (String.mk ('s' :: 'i' :: 'z' :: 'e' :: ':' :: rest))) ""))
      = none := h
  simp only [on_callback]
  rw [h2]
  rfl

/-- C10 witness: `unknown_size_defaults` at the unknown ratio `4:3`. -/
theorem unknown_size_defaults_witness :
    on_callback udMainEn (some (String.mk ['s', 'i', 'z', 'e', ':', '4', ':', '3']))
      = ({ udMainEn with ratio := some "1:1", mode := some "await_prompt" },
         [Eff.answerCb,
          Eff.editText (t (get_lang udMainEn) "prompt_intro" [("ratio", "1:1")])
            (some (kb_prompt_controls (get_lang udMainEn)))]) :=
  unknown_size_defaults udMainEn ['4', ':', '3'] (by decide)

/-- In a prompt-mode session, `on_text` runs the prompt branch. -/
theorem on_text_await (env : Env) (ud : UserData) (msgText : Option String) (r1 r2 : HFResp)
    (hm : get_mode ud = "await_prompt") :
    on_text env ud msgText r1 r2 = promptBranch env ud msgText r1 r2 := by
  unfold on_text
  rw [hm]
  rfl

/-- With a non-blank stripped text and a present `HF_TOKEN`, the prompt
branch runs the generation step. -/
theorem promptBranch_gen (env : Env) (ud : UserData) (msgText : Option String) (r1 r2 : HFResp)
    (hne : pyStrip (pyOrStr msgText "") ≠ "")
    (ht : isTruthy env.HF_TOKEN = true) :
    promptBranch env ud msgText r1 r2 = genBranch env ud msgText r1 r2 := by
  unfold promptBranch
  rw [if_neg hne, ht]
  rfl

/-- The generation step always records exactly the constructed request. -/
theorem genBranch_call (env : Env) (ud : UserData) (msgText : Option String) (r1 r2 : HFResp) :
    genCallOf (genBranch env ud msgText r1 r2).2.1
      = some (pyStrip (pyOrStr msgText ""), get_model env ud,
              ((dictGet RATIO_TO_WH (get_ratio ud)).getD (1024, 1024)).1,
              ((dictGet RATIO_TO_WH (get_ratio ud)).getD (1024, 1024)).2) := by
  unfold genBranch
  rcases hres : hf_text_to_image r1 r2 with ⟨res, n, w⟩
  rcases res with b | e | _ <;> simp [genCallOf]

/-- C3 counterexample: in an environment with a chat-transport credential but
no inference credential (`HF_TOKEN` unset), module initialization succeeds —
the process starts — and the missing credential surfaces only later, as the
`no_hf_token` chat reply when a prompt arrives during conversation handling.
This refutes the claim that both credentials are checked at startup and that
the absence of either is fatal. -/
theorem missing_hf_token_runtime_cx :
    moduleInit envNoHF = Except.ok () ∧
    on_text envNoHF udAwait (some "a red fox in snow") respPng respPng
      = (udAwait, [Eff.replyText (t "en" "no_hf_token" []) none], none) := by
  constructor
  · rfl
  · decide

/-- C3 (amended): only the chat-transport credential is checked at startup
(its absence is the fatal `RuntimeError` at import time); the inference
credential is not checked at startup — when it is missing, a prompt-mode
message is answered with the `no_hf_token` chat reply at runtime and no
generation request is made. -/
theorem credential_checks (env : Env) (ud : UserData) (msgText : Option String)
    (r1 r2 : HFResp) :
    (isTruthy (pyOr env.TELEGRAM_TOKEN env.TOKEN) = false →
      moduleInit env
        = Except.error "Нет TELEGRAM_TOKEN (или TOKEN) в переменных окружения Render") ∧
    (isTruthy (pyOr env.TELEGRAM_TOKEN env.TOKEN) = true → moduleInit env = Except.ok ()) ∧
    (get_mode ud = "await_prompt" → pyStrip (pyOrStr msgText "") ≠ "" →
      isTruthy env.HF_TOKEN = false →
      on_text env ud msgText r1 r2
        = (ud, [Eff.replyText (t (get_lang ud) "no_hf_token" []) none], none)) := by
  refine ⟨?_, ?_, ?_⟩
  · intro h
    unfold moduleInit
    rw [h]
    rfl
  · intro h
    unfold moduleInit
    rw [h]
    rfl
  · intro hm hne ht
    rw [on_text_await env ud msgText r1 r2 hm]
    unfold promptBranch
    rw [if_neg hne, ht]
    rfl

/-- C3 witness: `credential_checks` at the concrete environment missing the
inference credential, in a concrete prompt-mode session. -/
theorem credential_checks_witness :
    moduleInit envNoHF = Except.ok () ∧
    on_text envNoHF udAwait (some "hello") respPng respPng
      = (udAwait, [Eff.replyText (t (get_lang udAwait) "no_hf_token" []) none], none) :=
  ⟨(credential_checks envNoHF udAwait (some "hello") respPng respPng).2.1 (by decide),
   (credential_checks envNoHF udAwait (some "hello") respPng respPng).2.2
     (by decide) (by decide) (by decide)⟩

/-- C4 counterexample: in prompt mode, a whitespace-only message produces no
effect whatsoever — the handler returns silently, so the user is *not*
re-prompted.  (No generation request is constructed, as the claim also says;
that part holds.)  This refutes the clause "and the user is re-prompted". -/
theorem blank_prompt_silent_cx :
    on_text env0 udAwait (some "  \t ") respPng respPng = (udAwait, [], none) := by
  decide

/-- C4 (amended): for every free-text message whose text is empty or
whitespace-only, no generation request is ever constructed (the inference
client is never invoked), regardless of the current screen and of the prompt
flag; in menu screens the current menu is re-shown, but in prompt mode the
blank message is silently ignored with no reply. -/
theorem blank_text_never_generates (env : Env) (ud : UserData) (msgText : Option String)
    (r1 r2 : HFResp) (h : pyStrip (pyOrStr msgText "") = "") :
    genCallOf (on_text env ud msgText r1 r2).2.1 = none ∧
    (get_mode ud ≠ "idle" → get_mode ud ≠ "lang" → get_mode ud ≠ "main" →
      get_mode ud ≠ "design" → get_mode ud ≠ "hf" →
      on_text env ud msgText r1 r2 = (ud, [], none)) := by
  constructor
  · unfold on_text promptBranch
    rw [h]
    repeat' first
      | simp [genCallOf]
      | split
  · intro h1 h2 h3 h4 h5
    unfold on_text
    rw [if_neg (by rintro (hc | hc) <;> [exact h1 hc; exact h2 hc])]
    rw [if_neg (by rintro (hc | hc | hc) <;> [exact h3 hc; exact h4 hc; exact h5 hc])]
    unfold promptBranch
    rw [if_pos h]

/-- C4 witness: `blank_text_never_generates` on a whitespace-only message in
a prompt-mode session. -/
theorem blank_text_never_generates_witness :
    genCallOf (on_text env0 udAwait (some " \n ") respPng respPng).2.1 = none ∧
    on_text env0 udAwait (some " \n ") respPng respPng = (udAwait, [], none) :=
  ⟨(blank_text_never_generates env0 udAwait (some " \n ") respPng respPng (by decide)).1,
   (blank_text_never_generates env0 udAwait (some " \n ") respPng respPng (by decide)).2
     (by decide) (by decide) (by decide) (by decide) (by decide)⟩

/-- C8 (confirmed): a free-text message arriving on a menu screen (mode
`main`, `design` or `hf` — the MainMenu, ProviderMenu and SizeMenu screens)
leaves the whole session state unchanged, raises nothing, and its only
effect is to re-render the menu of the current screen. -/
theorem menu_text_reshows_menu (env : Env) (ud : UserData) (msgText : Option String)
    (r1 r2 : HFResp) :
    (get_mode ud = "main" →
      on_text env ud msgText r1 r2
        = (ud, [Eff.replyText (t (get_lang ud) "main_menu" []) (some (kb_main (get_lang ud)))],
           none)) ∧
    (get_mode ud = "design" →
      on_text env ud msgText r1 r2
        = (ud, [Eff.replyText (t (get_lang ud) "design_menu" []) (some (kb_design (get_lang ud)))],
           none)) ∧
    (get_mode ud = "hf" →
      on_text env ud msgText r1 r2
        = (ud, [Eff.replyText (t (get_lang ud) "hf_menu" []) (some (kb_hf_sizes (get_lang ud)))],
           none)) := by
  refine ⟨?_, ?_, ?_⟩ <;> intro hm <;> unfold on_text <;> rw [hm] <;> rfl

/-- C8 witness: `menu_text_reshows_menu` on each of the three menu screens
with concrete sessions and a concrete typed text. -/
theorem menu_text_reshows_menu_witness :
    on_text env0 udMainEn (some "hello") respPng respPng
      = (udMainEn, [Eff.replyText (t (get_lang udMainEn) "main_menu" [])
          (some (kb_main (get_lang udMainEn)))], none) ∧
    on_text env0 udDesignEn (some "hello") respPng respPng
      = (udDesignEn, [Eff.replyText (t (get_lang udDesignEn) "design_menu" [])
          (some (kb_design (get_lang udDesignEn)))], none) ∧
    on_text env0 udHfRu (some "hello") respPng respPng
      = (udHfRu, [Eff.replyText (t (get_lang udHfRu) "hf_menu" [])
          (some (kb_hf_sizes (get_lang udHfRu)))], none) :=
  ⟨(menu_text_reshows_menu env0 udMainEn (some "hello") respPng respPng).1 (by decide),
   (menu_text_reshows_menu env0 udDesignEn (some "hello") respPng respPng).2.1 (by decide),
   (menu_text_reshows_menu env0 udHfRu (some "hello") respPng respPng).2.2 (by decide)⟩

/-- C6 (confirmed): after a generation attempt in prompt mode — whether the
client returns an image or raises a classified `RuntimeError` — the session
mode is still `await_prompt`, and a subsequent non-blank free-text message
again constructs a generation request without any menu navigation. -/
theorem generation_keeps_prompt_mode (env : Env) (ud : UserData) (msgText : Option String)
    (r1 r2 : HFResp)
    (hm : get_mode ud = "await_prompt")
    (hne : pyStrip (pyOrStr msgText "") ≠ "")
    (ht : isTruthy env.HF_TOKEN = true)
    (hok : (hf_text_to_image r1 r2).1 ≠ PyResult.valueError) :
    get_mode (on_text env ud msgText r1 r2).1 = "await_prompt" ∧
    (∀ msgText2 r3 r4, pyStrip (pyOrStr msgText2 "") ≠ "" →
      genCallOf (on_text env (on_text env ud msgText r1 r2).1 msgText2 r3 r4).2.1
        = some (pyStrip (pyOrStr msgText2 ""),
                get_model env (on_text env ud msgText r1 r2).1,
                ((dictGet RATIO_TO_WH (get_ratio (on_text env ud msgText r1 r2).1)).getD (1024, 1024)).1,
                ((dictGet RATIO_TO_WH (get_ratio (on_text env ud msgText r1 r2).1)).getD (1024, 1024)).2)) := by
  have hmode : get_mode (on_text env ud msgText r1 r2).1 = "await_prompt" := by
    rw [on_text_await env ud msgText r1 r2 hm,
        promptBranch_gen env ud msgText r1 r2 hne ht]
    unfold genBranch
    rcases hres : hf_text_to_image r1 r2 with ⟨res, n, w⟩
    rcases res with b | e | _
    · rfl
    · rfl
    · exact absurd (by rw [hres]) hok
  refine ⟨hmode, ?_⟩
  intro msgText2 r3 r4 hne2
  rw [on_text_await env _ msgText2 r3 r4 hmode,
      promptBranch_gen env _ msgText2 r3 r4 hne2 ht]
  exact genBranch_call env _ msgText2 r3 r4

/-- C6 witness: `generation_keeps_prompt_mode` on a successful generation in
a concrete prompt-mode session. -/
theorem generation_keeps_prompt_mode_witness :
    get_mode (on_text env0 udAwait (some "a red fox in snow") respPng respPng).1
      = "await_prompt" :=
  (generation_keeps_prompt_mode env0 udAwait (some "a red fox in snow") respPng respPng
    (by decide) (by decide) (by decide) (by decide)).1

/-- C1 counterexample: on a backend-reported 403 error, `hf_text_to_image`
does not return a classified result — it raises (`raise RuntimeError(...)`,
modelled by the `runtimeError` constructor), leaving classification to the
string matching in the caller's `except RuntimeError` handler.  This refutes
the claim that the operation "does not throw/raise". -/
theorem hf_raises_on_error_cx :
    hf_text_to_image resp403 respPng
      = (PyResult.runtimeError "HF error 403: \x7b\"error\": \"forbidden\"\x7d", 1, none) := by
  decide

/-- C1 (amended): on every backend-reported error outcome, `hf_text_to_image`
raises rather than returning a classified value.  Exhaustively: when the
first response is not an image, either (a) the single retry yields an image,
or (b) a `RuntimeError` with message `HF error {code}: {payload}` is raised,
or (c) — only when the loading signal carries a negative estimated wait —
the sleep call raises `ValueError`.  In case (b) the caller `on_text`
catches the `RuntimeError`, replies with exactly one of the three localized
messages (`hf_403`, `hf_404`, or `hf_other` carrying the message) and keeps
the session in prompt mode; in case (c) the `ValueError` is not caught by
`on_text`'s `except RuntimeError` and escapes the handler. -/
theorem hf_error_classified_reply (env : Env) (ud : UserData) (msgText : Option String)
    (r1 r2 : HFResp)
    (hm : get_mode ud = "await_prompt")
    (hne : pyStrip (pyOrStr msgText "") ≠ "")
    (ht : isTruthy env.HF_TOKEN = true) :
    (∀ e : String, (hf_text_to_image r1 r2).1 = PyResult.runtimeError e →
      on_text env ud msgText r1 r2
        = (set_mode ud "await_prompt",
           [Eff.sendChatAction,
            Eff.replyText (t (get_lang ud) "generating" []) none,
            Eff.invokeGen (pyStrip (pyOrStr msgText "")) (get_model env ud)
              ((dictGet RATIO_TO_WH (get_ratio ud)).getD (1024, 1024)).1
              ((dictGet RATIO_TO_WH (get_ratio ud)).getD (1024, 1024)).2,
            Eff.deleteMsg,
            Eff.replyText (classifyHF (get_lang ud) e) none],
           none) ∧
      (classifyHF (get_lang ud) e = t (get_lang ud) "hf_403" [] ∨
       classifyHF (get_lang ud) e = t (get_lang ud) "hf_404" [] ∨
       classifyHF (get_lang ud) e = t (get_lang ud) "hf_other" [("msg", e)])) ∧
    ((hf_text_to_image r1 r2).1 = PyResult.valueError →
      (on_text env ud msgText r1 r2).2.2 = some Uncaught.valueError) ∧
    (isImgResp r1 = false →
      (∃ b, (hf_text_to_image r1 r2).1 = PyResult.img b ∧ isImgResp r2 = true) ∨
      (∃ st m, (hf_text_to_image r1 r2).1 = PyResult.runtimeError (hfErrorMsg st m)) ∨
      ((hf_text_to_image r1 r2).1 = PyResult.valueError ∧
       ∃ e : ℚ, dataEst r1 = some e ∧ min 12 e < 0)) := by
  refine ⟨?_, ?_, ?_⟩
  · intro e hr
    constructor
    · rw [on_text_await env ud msgText r1 r2 hm,
          promptBranch_gen env ud msgText r1 r2 hne ht]
      unfold genBranch
      rcases hres : hf_text_to_image r1 r2 with ⟨res, n, w⟩
      rw [hres] at hr
      simp only at hr
      subst hr
      rfl
    · unfold classifyHF
      split
      · exact Or.inl rfl
      · split
        · exact Or.inr (Or.inl rfl)
        · exact Or.inr (Or.inr rfl)
  · intro hv
    rw [on_text_await env ud msgText r1 r2 hm,
        promptBranch_gen env ud msgText r1 r2 hne ht]
    unfold genBranch
    rcases hres : hf_text_to_image r1 r2 with ⟨res, n, w⟩
    rw [hres] at hv
    simp only at hv
    subst hv
    rfl
  · intro h1
    unfold hf_text_to_image hfRetry
    rw [h1]
    rw [if_neg (by simp)]
    split
    · rename_i hg
      split
      · rename_i hw
        refine Or.inr (Or.inr ⟨rfl, (dataEst r1).getD 0, ?_, hw⟩)
        rcases hE : dataEst r1 with _ | e0
        · exact absurd hE hg.2.2.1
        · rfl
      · split
        · rename_i hr2
          exact Or.inl ⟨r2.content, rfl, hr2⟩
        · exact Or.inr (Or.inl ⟨r2.status, dataDump r2, rfl⟩)
    · exact Or.inr (Or.inl ⟨r1.status, dataDump r1, rfl⟩)

/-- C1 witness: `hf_error_classified_reply` on a concrete 403 response (the
classified 403 reply is produced and the session stays in prompt mode) and
on the concrete negative-estimate loading response (the `ValueError`
escapes `on_text`). -/
theorem hf_error_classified_reply_witness :
    on_text env0 udAwait (some "a red fox in snow") resp403 respPng
      = (set_mode udAwait "await_prompt",
         [Eff.sendChatAction,
          Eff.replyText (t "en" "generating" []) none,
          Eff.invokeGen "a red fox in snow" "stabilityai/stable-diffusion-2-1" 768 1344,
          Eff.deleteMsg,
          Eff.replyText (classifyHF "en" "HF error 403: \x7b\"error\": \"forbidden\"\x7d") none],
         none) ∧
    (on_text env0 udAwait (some "a red fox in snow") respLoadNeg respPng).2.2
      = some Uncaught.valueError :=
  ⟨((hf_error_classified_reply env0 udAwait (some "a red fox in snow") resp403 respPng
      (by decide) (by decide) (by decide)).1
      "HF error 403: \x7b\"error\": \"forbidden\"\x7d" (by decide)).1,
   (hf_error_classified_reply env0 udAwait (some "a red fox in snow") respLoadNeg respPng
      (by decide) (by decide) (by decide)).2.1 (by decide)⟩

/-- C7 (confirmed): the ratio-to-dimensions mapping is exactly
`1:1 → (1024, 1024)`, `9:16 → (768, 1344)`, `16:9 → (1344, 768)`, and the
round trip holds: after tapping the `size:9:16` button, the next generation
request is constructed with width 768 and height 1344 (never the 1:1
default); after `size:1:1`, with 1024 × 1024. -/
theorem ratio_mapping_round_trip :
    (dictGet RATIO_TO_WH "1:1" = some (1024, 1024) ∧
     dictGet RATIO_TO_WH "9:16" = some (768, 1344) ∧
     dictGet RATIO_TO_WH "16:9" = some (1344, 768) ∧
     (RATIO_TO_WH.map Prod.fst = ["1:1", "9:16", "16:9"])) ∧
    (∀ env : Env, ∀ ud : UserData, ∀ msgText : Option String, ∀ r1 r2 : HFResp,
      isTruthy env.HF_TOKEN = true → pyStrip (pyOrStr msgText "") ≠ "" →
      genCallOf (on_text env (on_callback ud (some "size:9:16")).1 msgText r1 r2).2.1
        = some (pyStrip (pyOrStr msgText ""), get_model env ud, 768, 1344)) ∧
    (∀ env : Env, ∀ ud : UserData, ∀ msgText : Option String, ∀ r1 r2 : HFResp,
      isTruthy env.HF_TOKEN = true → pyStrip (pyOrStr msgText "") ≠ "" →
      genCallOf (on_text env (on_callback ud (some "size:1:1")).1 msgText r1 r2).2.1
        = some (pyStrip (pyOrStr msgText ""), get_model env ud, 1024, 1024)) := by
  refine ⟨by decide, ?_, ?_⟩
  · intro env ud msgText r1 r2 ht hne
    have hm : get_mode (on_callback ud (some "size:9:16")).1 = "await_prompt" := rfl
    rw [on_text_await env _ msgText r1 r2 hm,
        promptBranch_gen env _ msgText r1 r2 hne ht,
        genBranch_call env _ msgText r1 r2]
    rfl
  · intro env ud msgText r1 r2 ht hne
    have hm : get_mode (on_callback ud (some "size:1:1")).1 = "await_prompt" := rfl
    rw [on_text_await env _ msgText r1 r2 hm,
        promptBranch_gen env _ msgText r1 r2 hne ht,
        genBranch_call env _ msgText r1 r2]
    rfl

/-- C7 witness: `ratio_mapping_round_trip` exercised on a concrete session
and prompt for both the 9:16 and the 1:1 selections. -/
theorem ratio_mapping_round_trip_witness :
    genCallOf (on_text env0 (on_callback udHfRu (some "size:9:16")).1
        (some "a red fox in snow") respPng respPng).2.1
      = some ("a red fox in snow", "stabilityai/stable-diffusion-2-1", 768, 1344) ∧
    genCallOf (on_text env0 (on_callback udHfRu (some "size:1:1")).1
        (some "a red fox in snow") respPng respPng).2.1
      = some ("a red fox in snow", "stabilityai/stable-diffusion-2-1", 1024, 1024) :=
  ⟨ratio_mapping_round_trip.2.1 env0 udHfRu (some "a red fox in snow") respPng respPng
     (by decide) (by decide),
   ratio_mapping_round_trip.2.2 env0 udHfRu (some "a red fox in snow") respPng respPng
     (by decide) (by decide)⟩


/-- C5 counterexample: when the backend reports "currently loading" with a
*negative* estimated wait (-3), the computed wait `min(12, est)` is -3 — not
clamped into any fixed non-negative range — and `time.sleep(-3)` raises
`ValueError` before any retry: only one request is sent and the (here
successful) second response is never consulted.  This refutes the clause
"with the wait clamped to a small fixed range regardless of the backend's
reported estimate ... and then returns whatever the second response
yields". -/
theorem negative_estimate_not_clamped_cx :
    hf_text_to_image respLoadNeg respPng = (PyResult.valueError, 1, some (-3)) ∧
    ((-3 : ℚ) < 0) ∧ isImgResp respPng = true := by
  decide

/-- C5 (amended): the client waits `min(12, est)` — capped above at 12
seconds, hence inside `[0, 12]` for every non-negative reported estimate —
and performs at most one delayed retry: on a loading response with a
positive estimate it sends exactly two requests and returns whatever the
second response yields (no further retries); on a negative estimate the
sleep call raises before the retry (one request, nothing returned); in
every other case it sends exactly one request and never sleeps. -/
theorem retry_policy_capped :
    (∀ r1 r2 : HFResp,
       (hf_text_to_image r1 r2).2.1 = 1 ∨ (hf_text_to_image r1 r2).2.1 = 2) ∧
    (∀ r1 r2 : HFResp, ∀ w : ℚ, (hf_text_to_image r1 r2).2.2 = some w →
       w = min 12 ((dataEst r1).getD 0) ∧ w ≤ 12) ∧
    (∀ r1 r2 : HFResp, ∀ e : ℚ, isImgResp r1 = false → r1.status = 503 →
       dataIsDict r1 = true → dataEst r1 = some e → 0 < e →
       hf_text_to_image r1 r2
         = ((if isImgResp r2 = true then PyResult.img r2.content
             else PyResult.runtimeError (hfErrorMsg r2.status (dataDump r2))),
            2, some (min 12 e)) ∧
       0 ≤ min (12 : ℚ) e ∧ min (12 : ℚ) e ≤ 12) ∧
    (∀ r1 r2 : HFResp, ∀ e : ℚ, isImgResp r1 = false → r1.status = 503 →
       dataIsDict r1 = true → dataEst r1 = some e → e < 0 →
       (hf_text_to_image r1 r2).1 = PyResult.valueError ∧
       (hf_text_to_image r1 r2).2.1 = 1) ∧
    (∀ r1 r2 : HFResp,
       ¬ (r1.status = 503 ∧ dataIsDict r1 = true ∧ ∃ e, dataEst r1 = some e ∧ e ≠ 0) →
       (hf_text_to_image r1 r2).2.1 = 1 ∧ (hf_text_to_image r1 r2).2.2 = none) := by
  refine ⟨?_, ?_, ?_, ?_, ?_⟩
  · intro r1 r2
    unfold hf_text_to_image hfRetry
    repeat' first
      | (left; rfl)
      | (right; rfl)
      | split
  · intro r1 r2 w h
    unfold hf_text_to_image hfRetry at h
    split at h
    · exact absurd h (by simp)
    · split at h
      · split at h
        · simp only [Option.some.injEq] at h
          exact ⟨h.symm, by rw [← h]; exact min_le_left 12 _⟩
        · split at h
          · simp only [Option.some.injEq] at h
            exact ⟨h.symm, by rw [← h]; exact min_le_left 12 _⟩
          · simp only [Option.some.injEq] at h
            exact ⟨h.symm, by rw [← h]; exact min_le_left 12 _⟩
      · exact absurd h (by simp)
  · intro r1 r2 e h1 h2 h3 h4 h5
    have hgetD : (dataEst r1).getD 0 = e := by rw [h4]; rfl
    have hnn : dataEst r1 ≠ none := by rw [h4]; simp
    have hnz : (dataEst r1).getD 0 ≠ 0 := by rw [hgetD]; exact ne_of_gt h5
    have hmin0 : (0 : ℚ) ≤ min 12 e := le_min (by norm_num) (le_of_lt h5)
    refine ⟨?_, hmin0, min_le_left 12 e⟩
    unfold hf_text_to_image hfRetry
    rw [h1]
    rw [if_neg (by simp), if_pos ⟨h2, h3, hnn, hnz⟩, hgetD,
        if_neg (not_lt.mpr hmin0)]
    split <;> rfl
  · intro r1 r2 e h1 h2 h3 h4 h5
    have hgetD : (dataEst r1).getD 0 = e := by rw [h4]; rfl
    have hnn : dataEst r1 ≠ none := by rw [h4]; simp
    have hnz : (dataEst r1).getD 0 ≠ 0 := by rw [hgetD]; exact ne_of_lt h5
    have hmin : min (12 : ℚ) e < 0 := lt_of_le_of_lt (min_le_right 12 e) h5
    unfold hf_text_to_image hfRetry
    rw [h1]
    rw [if_neg (by simp), if_pos ⟨h2, h3, hnn, hnz⟩, hgetD, if_pos hmin]
    exact ⟨rfl, rfl⟩
  · intro r1 r2 hno
    have hguard : ¬ (r1.status = 503 ∧ dataIsDict r1 = true ∧ dataEst r1 ≠ none ∧
        (dataEst r1).getD 0 ≠ 0) := by
      rintro ⟨ha, hb, hc, hd⟩
      rcases hE : dataEst r1 with _ | est
      · exact hc hE
      · rw [hE] at hd
        exact hno ⟨ha, hb, est, hE, hd⟩
    unfold hf_text_to_image
    rw [if_neg hguard]
    split <;> exact ⟨rfl, rfl⟩

/-- C5 witness: `retry_policy_capped` on the concrete loading response with
estimate 3: two requests, a 3-second wait inside `[0, 12]`, and the second
(successful) response returned. -/
theorem retry_policy_capped_witness :
    hf_text_to_image respLoad3 respPng
      = ((if isImgResp respPng = true then PyResult.img respPng.content
          else PyResult.runtimeError (hfErrorMsg respPng.status (dataDump respPng))),
         2, some (min 12 3)) ∧
    (0 : ℚ) ≤ min 12 3 ∧ min (12 : ℚ) 3 ≤ 12 :=
  retry_policy_capped.2.2.1 respLoad3 respPng 3 (by decide) (by decide) (by decide)
    (by decide) (by norm_num)
